import Mathlib

/-!
Verification of the mcp-web-scraper repository against its natural-language
specification. The repository contains two parallel implementations of the
same tool surface: the registered tools in src/tools (search.py, scraping.py,
with utils/helpers.py) and the WebScraper class in src/src/tools.py. Both are
embedded below; definitions named ws_... model the WebScraper variant, the
others model the src/tools variant. External capabilities (DuckDuckGo search,
trafilatura download/extract, newspaper parsing, the HTTP session) are modelled
as oracle function parameters; Python exceptions raised by a capability are
modelled with Except, and Python None with Option.
-/

/-! ## Text cleaning (src/utils/helpers.py clean_text, src/src/tools.py WebScraper._clean_text)

Python: if not text: return ""; text = re.sub(r'\s+', ' ', text); return text.strip().
The regex substitution replaces every maximal run of whitespace characters by a
single space; collapseWsAux implements exactly that, with the flag recording
whether the scanner is inside a whitespace run. -/

/-- Whitespace class of the regex \s (ASCII part: space, tab, newline,
carriage return, vertical tab, form feed). -/
def pyWs (c : Char) : Bool :=
  c == ' ' || c == '\t' || c == '\n' || c == '\r' || c == '\x0b' || c == '\x0c'

/-- Replace every maximal run of whitespace by a single space; the Boolean flag
records whether the previously scanned character was whitespace. -/
def collapseWsAux : Bool → List Char → List Char
  | _, [] => []
  | true, c :: cs =>
    if pyWs c then collapseWsAux true cs
    else c :: collapseWsAux false cs
  | false, c :: cs =>
    if pyWs c then ' ' :: collapseWsAux true cs
    else c :: collapseWsAux false cs

/-- Embedding of re.sub applied with pattern \s+ and replacement a single space. -/
def collapseWs (l : List Char) : List Char := collapseWsAux false l

/-- Embedding of str.strip on the left: drop leading whitespace. -/
def lstripWs (l : List Char) : List Char := l.dropWhile pyWs

/-- Embedding of str.strip on the right: drop trailing whitespace. -/
def rstripWs (l : List Char) : List Char := (l.reverse.dropWhile pyWs).reverse

/-- Embedding of str.strip: drop leading and trailing whitespace. -/
def stripWs (l : List Char) : List Char := rstripWs (lstripWs l)

/-- Embedding of clean_text (src/utils/helpers.py lines 9-30; identical code in
WebScraper._clean_text, src/src/tools.py lines 472-479). The empty string is
falsy in Python, hence the guard mirroring the line if not text: return "". -/
def clean_text (s : String) : String :=
  if s = "" then ""
  else String.mk (stripWs (collapseWs s.data))

/-- Python clean_text(None) also takes the falsy branch and returns "";
this lifts clean_text to an absent (None) argument. -/
def clean_text_of_opt : Option String → String
  | none => ""
  | some s => clean_text s

/-! ## Data model for the search tools (src/tools/search.py)

Python dicts with a varying key set are modelled as a record with Option
fields: a field holds none exactly when the corresponding key is absent from
the dict. Search-result items produced by web_search carry only the keys
title, url, snippet; news_search adds source, date, image; search_and_scrape
adds content and content_length. -/

/-- Raw item returned by the DuckDuckGo text-search capability (keys read via
result.get with default ""). -/
structure DDGSTextResult where
  title : Option String
  href : Option String
  body : Option String
deriving DecidableEq, Repr

/-- Raw item returned by the DuckDuckGo news-search capability. -/
structure DDGSNewsResult where
  title : Option String
  url : Option String
  body : Option String
  source : Option String
  date : Option String
  image : Option String
deriving DecidableEq, Repr

/-- A result dict as built by the search tools. Fields title, url, snippet are
always present; the remaining fields model optional dict keys (none = key
absent). -/
structure ResultItem where
  title : String
  url : String
  snippet : String
  source : Option String
  date : Option String
  image : Option String
  content : Option String
  content_length : Option Nat
deriving DecidableEq, Repr

/-- The ToolResult envelope of the search tools: success true with query,
results and count, or success false with query and error. -/
inductive ToolResponse where
  | ok (query : String) (results : List ResultItem) (count : Nat)
  | err (query : String) (error : String)
deriving DecidableEq, Repr

/-- Search capability oracle: the DDGS text search, which may raise. -/
abbrev TextSearchCap := String → Nat → Except String (List DDGSTextResult)

/-- News capability oracle: the DDGS news search, which may raise. -/
abbrev NewsSearchCap := String → Nat → Except String (List DDGSNewsResult)

/-- Oracle for trafilatura.fetch_url: may raise, may return None, else markup. -/
abbrev FetchCap := String → Except String (Option String)

/-- Oracle for trafilatura.extract on downloaded markup: may raise, may return
None, else extracted text. -/
abbrev ExtractCap := String → Except String (Option String)

/-- Dict built for one web_search result: keys title, url, snippet only
(src/tools/search.py lines 39-43). -/
def toResultItem (r : DDGSTextResult) : ResultItem :=
  { title := r.title.getD "", url := r.href.getD "", snippet := r.body.getD ""
    source := none, date := none, image := none
    content := none, content_length := none }

/-- Dict built for one news_search result: keys title, url, snippet, source,
date, image (src/tools/search.py lines 79-86). -/
def toNewsResultItem (r : DDGSNewsResult) : ResultItem :=
  { title := r.title.getD "", url := r.url.getD "", snippet := r.body.getD ""
    source := some (r.source.getD ""), date := some (r.date.getD "")
    image := some (r.image.getD "")
    content := none, content_length := none }

/-- Number of results requested from the search capability by web_search:
the code passes min(max_results, 20) (src/tools/search.py line 37). -/
def web_search_requested (max_results : Nat) : Nat := min max_results 20

/-- Number of results requested from the news capability by news_search:
the code passes min(max_results, 20) (src/tools/search.py line 77). -/
def news_search_requested (max_results : Nat) : Nat := min max_results 20

/-- Embedding of web_search (src/tools/search.py lines 18-54). -/
def web_search (ddgs : TextSearchCap) (query : String) (max_results : Nat) :
    ToolResponse :=
  match ddgs query (web_search_requested max_results) with
  | .error e => .err query e
  | .ok search_results =>
    let results := search_results.map toResultItem
    .ok query results results.length

/-- Embedding of news_search (src/tools/search.py lines 58-97). -/
def news_search (news : NewsSearchCap) (query : String) (max_results : Nat) :
    ToolResponse :=
  match news query (news_search_requested max_results) with
  | .error e => .err query e
  | .ok news_results =>
    let results := news_results.map toNewsResultItem
    .ok query results results.length

/-! ## Fan-out orchestrator (src/tools/search.py search_and_scrape, lines 101-173) -/

/-- Per-item fetch-and-extract step of search_and_scrape (src/tools/search.py
lines 131-159). The whole step sits in a try/except, so an exception raised by
either trafilatura call lands in the Error branch. Python truthiness: a
downloaded value of None or "" takes the failed-download branch, an extracted
value of None or "" takes the placeholder branch. On success and on empty
extraction the code builds a fresh dict with keys title, url, snippet, content,
content_length; in the other branches it spreads the original item. -/
def scrape_item (tfFetch : FetchCap) (tfExtract : ExtractCap)
    (result : ResultItem) : ResultItem :=
  match tfFetch result.url with
  | .error e =>
    { result with
      content := some ("Error: " ++ e)
      content_length := some 0 }
  | .ok none =>
    { result with
      content := some "Failed to download page"
      content_length := some 0 }
  | .ok (some downloaded) =>
    if downloaded = "" then
      { result with
        content := some "Failed to download page"
        content_length := some 0 }
    else
      match tfExtract downloaded with
      | .error e =>
        { result with
          content := some ("Error: " ++ e)
          content_length := some 0 }
      | .ok content =>
        { title := result.title, url := result.url, snippet := result.snippet
          source := none, date := none, image := none
          content := some (match content with
            | some c => if c = "" then "Content extraction failed" else c
            | none => "Content extraction failed")
          content_length := some (match content with
            | some c => if c = "" then 0 else c.length
            | none => 0) }

/-- Loop of search_and_scrape over the sliced search results: each iteration
performs exactly one fetch_url call for the item and appends exactly one
enriched dict. The second component records the urls passed to fetch_url,
in order, so that fetch attempts are observable. -/
def scrape_loop (tfFetch : FetchCap) (tfExtract : ExtractCap)
    (items : List ResultItem) : List ResultItem × List String :=
  items.foldl
    (fun acc r =>
      (acc.1 ++ [scrape_item tfFetch tfExtract r], acc.2 ++ [r.url]))
    ([], [])

/-- Embedding of search_and_scrape (src/tools/search.py lines 101-173),
paired with the list of urls on which fetch_url was attempted. The code first
clamps num_results to min(num_results, 10), then calls web_search; a failed
search is returned verbatim with no fetch attempt; otherwise each of the first
num_results search results is scraped in order. -/
def search_and_scrape_traced (ddgs : TextSearchCap) (tfFetch : FetchCap)
    (tfExtract : ExtractCap) (query : String) (num_results : Nat) :
    ToolResponse × List String :=
  let n := min num_results 10
  match web_search ddgs query n with
  | .err q e => (.err q e, [])
  | .ok _q results _count =>
    let p := scrape_loop tfFetch tfExtract (results.take n)
    (.ok query p.1 p.1.length, p.2)

/-- The response of search_and_scrape, without the fetch-attempt trace. -/
def search_and_scrape (ddgs : TextSearchCap) (tfFetch : FetchCap)
    (tfExtract : ExtractCap) (query : String) (num_results : Nat) :
    ToolResponse :=
  (search_and_scrape_traced ddgs tfFetch tfExtract query num_results).1

/-- Embedding of smart_search (src/tools/search.py lines 177-202). -/
def smart_search (ddgs : TextSearchCap) (tfFetch : FetchCap)
    (tfExtract : ExtractCap) (query : String) (mode : String) : ToolResponse :=
  if mode = "quick" then web_search ddgs query 3
  else if mode = "standard" then web_search ddgs query 5
  else search_and_scrape ddgs tfFetch tfExtract query 10

/-! ## WebScraper variant (src/src/tools.py)

The class methods differ from the src/tools variant in points that matter
here: web_search and news_search pass max_results to the capability without
clamping (lines 250 and 446), web_search adds a source key "DuckDuckGo" to
every item (line 257), search_and_scrape does not clamp num_results and its
exception placeholder reads "Scraping error: ..." (line 326). -/

/-- Number of results WebScraper.web_search requests from the capability:
max_results unchanged (src/src/tools.py line 250). -/
def ws_web_search_requested (max_results : Nat) : Nat := max_results

/-- Number of results WebScraper.news_search requests from the capability:
max_results unchanged (src/src/tools.py line 446). -/
def ws_news_search_requested (max_results : Nat) : Nat := max_results

/-- Dict built for one WebScraper.web_search result: keys title, url, snippet
and source with constant value "DuckDuckGo" (src/src/tools.py lines 253-258). -/
def ws_toResultItem (r : DDGSTextResult) : ResultItem :=
  { title := r.title.getD "", url := r.href.getD "", snippet := r.body.getD ""
    source := some "DuckDuckGo", date := none, image := none
    content := none, content_length := none }

/-- Embedding of WebScraper.web_search (src/src/tools.py lines 235-272). -/
def ws_web_search (ddgs : TextSearchCap) (query : String) (max_results : Nat) :
    ToolResponse :=
  match ddgs query (ws_web_search_requested max_results) with
  | .error e => .err query e
  | .ok search_results =>
    let results := search_results.map ws_toResultItem
    .ok query results results.length

/-- Embedding of WebScraper.news_search (src/src/tools.py lines 431-470). -/
def ws_news_search (news : NewsSearchCap) (query : String) (max_results : Nat) :
    ToolResponse :=
  match news query (ws_news_search_requested max_results) with
  | .error e => .err query e
  | .ok news_results =>
    let results := news_results.map toNewsResultItem
    .ok query results results.length

/-- Per-item step of WebScraper.search_and_scrape (src/src/tools.py lines
299-328): same structure as scrape_item, with the exception placeholder
"Scraping error: ...". The success and empty-extraction branches build a fresh
dict with only title, url, snippet, content, content_length, dropping the
source key that WebScraper.web_search put on the item. -/
def ws_scrape_item (tfFetch : FetchCap) (tfExtract : ExtractCap)
    (result : ResultItem) : ResultItem :=
  match tfFetch result.url with
  | .error e =>
    { result with
      content := some ("Scraping error: " ++ e)
      content_length := some 0 }
  | .ok none =>
    { result with
      content := some "Failed to download page"
      content_length := some 0 }
  | .ok (some downloaded) =>
    if downloaded = "" then
      { result with
        content := some "Failed to download page"
        content_length := some 0 }
    else
      match tfExtract downloaded with
      | .error e =>
        { result with
          content := some ("Scraping error: " ++ e)
          content_length := some 0 }
      | .ok content =>
        { title := result.title, url := result.url, snippet := result.snippet
          source := none, date := none, image := none
          content := some (match content with
            | some c => if c = "" then "Content extraction failed" else c
            | none => "Content extraction failed")
          content_length := some (match content with
            | some c => if c = "" then 0 else c.length
            | none => 0) }

/-- Embedding of WebScraper.search_and_scrape (src/src/tools.py lines
274-345): no clamp on num_results, otherwise the same shape as the
src/tools variant. -/
def ws_search_and_scrape (ddgs : TextSearchCap) (tfFetch : FetchCap)
    (tfExtract : ExtractCap) (query : String) (num_results : Nat) :
    ToolResponse :=
  match ws_web_search ddgs query num_results with
  | .err q e => .err q e
  | .ok _q results _count =>
    let enriched :=
      (results.take num_results).map (ws_scrape_item tfFetch tfExtract)
    .ok query enriched enriched.length

/-! ## Table scraping (src/tools/scraping.py scrape_table, lines 230-290;
identical logic in WebScraper.scrape_table, src/src/tools.py lines 173-233)

The parsed document is modelled at the granularity the code observes: the list
of table nodes in document order; for each table, the raw texts of the th/td
cells found inside its thead section (none when the table has no thead), and
the list of all tr nodes found anywhere in the table (those inside the thead
included, since table.find_all of tr searches the whole subtree), each with the
raw texts of its th/td cells. -/

/-- One tr node: the raw text of each of its th/td cells, in document order. -/
structure TableRow where
  cells : List String
deriving DecidableEq, Repr

/-- One table node as observed by scrape_table. -/
structure HtmlTable where
  theadCells : Option (List String)
  trs : List TableRow
deriving DecidableEq, Repr

/-- The ToolResult envelope of scrape_table. -/
inductive TableResponse where
  | ok (url : String) (headers : List String) (rows : List (List String))
      (row_count : Nat)
  | err (url : String) (error : String)
deriving DecidableEq, Repr

/-- Success flag of a scrape_table response. -/
def TableResponse.isSuccess : TableResponse → Bool
  | .ok _ _ _ _ => true
  | .err _ _ => false

/-- Python list indexing tables[i] on an int index: a nonnegative index selects
from the front, a negative index counts from the back, and anything else raises
IndexError (modelled as none). -/
def pyListGet (tables : List HtmlTable) (i : Int) : Option HtmlTable :=
  if 0 ≤ i then tables[i.toNat]?
  else if 0 ≤ i + tables.length then tables[(i + tables.length).toNat]?
  else none

/-- Headers of a table: cleaned texts of the thead cells when a thead exists,
else the empty list (src/tools/scraping.py lines 269-272). -/
def table_headers (t : HtmlTable) : List String :=
  match t.theadCells with
  | none => []
  | some cs => cs.map clean_text

/-- Rows of a table: each tr contributes its cleaned cell texts, kept when the
cell list is nonempty and differs from the headers (src/tools/scraping.py
lines 274-278, the test if cells and cells != headers). -/
def table_rows (t : HtmlTable) : List (List String) :=
  (t.trs.map (fun tr => tr.cells.map clean_text)).filter
    (fun cells => !cells.isEmpty && cells != table_headers t)

/-- Embedding of scrape_table (src/tools/scraping.py lines 230-290) applied to
an already fetched and parsed document. table_index is an int: the code checks
only table_index >= len(tables), so a negative index reaches tables[i] and is
resolved by Python indexing; an IndexError there is caught by the except
clause, which returns the message of the exception. -/
def scrape_table_doc (url : String) (tables : List HtmlTable)
    (table_index : Int) : TableResponse :=
  if tables.length = 0 then
    .err url "No tables found on page"
  else if (tables.length : Int) ≤ table_index then
    .err url ("Table index " ++ toString table_index ++
      " out of range. Found " ++ toString tables.length ++ " tables.")
  else
    match pyListGet tables table_index with
    | none => .err url "list index out of range"
    | some t =>
      .ok url (table_headers t) (table_rows t) (table_rows t).length

/-! ## Article extraction (src/tools/scraping.py extract_article, lines 69-116;
same selection logic in WebScraper.extract_article, src/src/tools.py lines
347-394) -/

/-- What newspaper parsing yields for a url: the structured fields and the
body-text candidate. The text field is "" when the parser found no body text
(newspaper text is always a string). The publish_date field models
str(article.publish_date) when a date is present. -/
structure ArticleData where
  title : String
  authors : List String
  publish_date : Option String
  top_image : String
  text : String
deriving DecidableEq, Repr

/-- Oracle for the newspaper strategy: Article(url) with download() and
parse(), which may raise. -/
abbrev NewspaperCap := String → Except String ArticleData

/-- The ToolResult envelope of extract_article. -/
inductive ArticleResponse where
  | ok (url : String) (title : String) (authors : List String)
      (publish_date : Option String) (top_image : String)
      (content : Option String) (content_length : Nat)
  | err (url : String) (error : String)
deriving DecidableEq, Repr

/-- The trafilatura part of extract_article (src/tools/scraping.py lines
92-99): fetch_url, and extract only when the downloaded value is truthy;
trafilatura_content stays None otherwise. Raises propagate. -/
def trafilatura_step (tfFetch : FetchCap) (tfExtract : ExtractCap)
    (url : String) : Except String (Option String) :=
  match tfFetch url with
  | .error e => .error e
  | .ok none => .ok none
  | .ok (some downloaded) =>
    if downloaded = "" then .ok none else tfExtract downloaded

/-- Embedding of extract_article (src/tools/scraping.py lines 69-116). The
content selection is the line content = article.text if article.text else
trafilatura_content; content_length is len(content) if content else 0. An
exception in either strategy is caught by the single except clause and
produces the error envelope with no structured fields. -/
def extract_article (np : NewspaperCap) (tfFetch : FetchCap)
    (tfExtract : ExtractCap) (url : String) : ArticleResponse :=
  match np url with
  | .error e => .err url e
  | .ok article =>
    match trafilatura_step tfFetch tfExtract url with
    | .error e => .err url e
    | .ok trafilatura_content =>
      let content : Option String :=
        if article.text = "" then trafilatura_content else some article.text
      .ok url article.title article.authors article.publish_date
        article.top_image content
        (match content with
         | some c => if c = "" then 0 else c.length
         | none => 0)

/-! ## Concrete capabilities and documents used to instantiate the theorems -/

/-- Sample raw search result. -/
def rawItemA : DDGSTextResult :=
  { title := some "t", href := some "http://a", body := some "s" }

/-- Search capability returning one fixed result. -/
def ddgsOne : TextSearchCap := fun _ _ => .ok [rawItemA]

/-- Search capability that always raises. -/
def ddgsFail : TextSearchCap := fun _ _ => .error "boom"

/-- Search capability that honors the documented cap of 20 results and raises
on any larger request, making the requested amount observable. -/
def ddgsCap20 : TextSearchCap :=
  fun _ n => if n ≤ 20 then .ok [] else .error "over cap"

/-- News capability that honors the documented cap of 20 results and raises on
any larger request. -/
def newsCap20 : NewsSearchCap :=
  fun _ n => if n ≤ 20 then .ok [] else .error "over cap"

/-- Fetch capability for which every download fails (fetch_url returns None). -/
def fetchNone : FetchCap := fun _ => .ok none

/-- Fetch capability returning fixed markup. -/
def fetchSome : FetchCap := fun _ => .ok (some "markup")

/-- Extract capability returning the fixed text "Hello world". -/
def extractHello : ExtractCap := fun _ => .ok (some "Hello world")

/-- Extract capability that finds no text. -/
def extractNone : ExtractCap := fun _ => .ok none

/-- Newspaper capability whose parse yields structured fields and an empty
body text. -/
def npEmptyText : NewspaperCap :=
  fun _ => .ok { title := "T", authors := [], publish_date := none,
                 top_image := "", text := "" }

/-- Document with one table, no thead, rows A,B and 1,2 (the spec scenario). -/
def scenarioDoc : List HtmlTable :=
  [{ theadCells := none, trs := [⟨["A", "B"]⟩, ⟨["1", "2"]⟩] }]

/-- Document with one table whose thead holds one cell H and whose body holds
one tr with no cells (realizable as a thead tr followed by an empty tr). -/
def emptyRowDoc : List HtmlTable :=
  [{ theadCells := some ["H"], trs := [⟨["H"]⟩, ⟨[]⟩] }]

/-- Document with a single empty table. -/
def oneTableDoc : List HtmlTable := [{ theadCells := none, trs := [] }]

/-! ## Helper lemmas -/

/-- The scrape loop folded from any accumulator appends one enriched item and
one fetch attempt per input item. -/
theorem scrape_loop_foldl_eq (tfFetch : FetchCap) (tfExtract : ExtractCap)
    (items : List ResultItem) (acc : List ResultItem × List String) :
    items.foldl
      (fun acc r =>
        (acc.1 ++ [scrape_item tfFetch tfExtract r], acc.2 ++ [r.url])) acc =
      (acc.1 ++ items.map (scrape_item tfFetch tfExtract),
       acc.2 ++ items.map (fun r => r.url)) := by
  induction items generalizing acc with
  | nil => simp
  | cons r rest ih => simp [ih]

/-- The scrape loop maps scrape_item over the items, in order, and attempts
one fetch per item. -/
theorem scrape_loop_eq (tfFetch : FetchCap) (tfExtract : ExtractCap)
    (items : List ResultItem) :
    scrape_loop tfFetch tfExtract items =
      (items.map (scrape_item tfFetch tfExtract),
       items.map (fun r => r.url)) := by
  simpa [scrape_loop] using
    scrape_loop_foldl_eq tfFetch tfExtract items ([], [])

/-! ## Claim C1 -/

/-- C1: if the search step of search_and_scrape(query, k) succeeds and returns
k search results (the capability answers a request for min(k, 10) results, so
respecting the requested maximum forces k ≤ 10), then search_and_scrape
returns success with exactly k enriched results, one per search result, in the
same order, for every behavior of the per-item fetch and extract
capabilities. -/
theorem c1_search_and_scrape_count_and_order
    (ddgs : TextSearchCap) (tfFetch : FetchCap) (tfExtract : ExtractCap)
    (query : String) (k : Nat) (rs : List ResultItem) (cnt : Nat)
    (hsearch : web_search ddgs query (min k 10) = .ok query rs cnt)
    (hlen : rs.length = k) (hk : k ≤ 10) :
    search_and_scrape ddgs tfFetch tfExtract query k =
      .ok query (rs.map (scrape_item tfFetch tfExtract)) k ∧
    (rs.map (scrape_item tfFetch tfExtract)).length = k ∧
    ∀ i : Nat, (rs.map (scrape_item tfFetch tfExtract))[i]? =
      (rs[i]?).map (scrape_item tfFetch tfExtract) := by
  have hmin : min k 10 = k := Nat.min_eq_left hk
  refine ⟨?_, by simp [hlen], fun i => by simp⟩
  have htake : rs.take (min k 10) = rs := by
    rw [hmin, ← hlen]
    exact List.take_length rs
  simp only [search_and_scrape, search_and_scrape_traced, hsearch]
  simp [scrape_loop_eq, htake, hlen]

/-- Witness for C1: a one-result search where the single fetch fails still
yields success with exactly one enriched result. -/
theorem c1_search_and_scrape_count_and_order_witness :
    search_and_scrape ddgsOne fetchNone extractNone "q" 1 =
      .ok "q"
        [{ title := "t"
           url := "http://a"
           snippet := "s"
           source := none
           date := none
           image := none
           content := some "Failed to download page"
           content_length := some 0 }] 1 := by
  have h := (c1_search_and_scrape_count_and_order ddgsOne fetchNone extractNone
    "q" 1 [toResultItem rawItemA] 1 (by decide) (by decide) (by decide)).1
  exact h.trans (by decide)

/-! ## Claim C2 -/

/-- C2: within search_and_scrape each per-item extraction outcome maps
deterministically to the content and content_length of the enriched item: a
failed download (fetch_url returning a falsy value) gives the download
placeholder with length 0; a successful download whose extraction yields empty
or absent text gives the extraction placeholder with length 0; an exception in
the fetch or the extraction gives the message-bearing placeholder with length
0; a successful extraction with non-empty text gives that text with length
equal to its size. -/
theorem c2_scrape_item_outcome_mapping (tfFetch : FetchCap)
    (tfExtract : ExtractCap) (r : ResultItem) :
    (∀ e, tfFetch r.url = .error e →
      scrape_item tfFetch tfExtract r =
        { r with
          content := some ("Error: " ++ e)
          content_length := some 0 }) ∧
    (tfFetch r.url = .ok none →
      scrape_item tfFetch tfExtract r =
        { r with
          content := some "Failed to download page"
          content_length := some 0 }) ∧
    (tfFetch r.url = .ok (some "") →
      scrape_item tfFetch tfExtract r =
        { r with
          content := some "Failed to download page"
          content_length := some 0 }) ∧
    (∀ d e, tfFetch r.url = .ok (some d) → d ≠ "" → tfExtract d = .error e →
      scrape_item tfFetch tfExtract r =
        { r with
          content := some ("Error: " ++ e)
          content_length := some 0 }) ∧
    (∀ d, tfFetch r.url = .ok (some d) → d ≠ "" →
      (tfExtract d = .ok none ∨ tfExtract d = .ok (some "")) →
      scrape_item tfFetch tfExtract r =
        { title := r.title
          url := r.url
          snippet := r.snippet
          source := none
          date := none
          image := none
          content := some "Content extraction failed"
          content_length := some 0 }) ∧
    (∀ d c, tfFetch r.url = .ok (some d) → d ≠ "" →
      tfExtract d = .ok (some c) → c ≠ "" →
      scrape_item tfFetch tfExtract r =
        { title := r.title
          url := r.url
          snippet := r.snippet
          source := none
          date := none
          image := none
          content := some c
          content_length := some c.length }) := by
  refine ⟨fun e he => by simp [scrape_item, he],
    fun h => by simp [scrape_item, h],
    fun h => by simp [scrape_item, h],
    fun d e hd hne he => by simp [scrape_item, hd, hne, he],
    fun d hd hne hext => ?_,
    fun d c hd hne hext hc => by simp [scrape_item, hd, hne, hext, hc]⟩
  rcases hext with h | h <;> simp [scrape_item, hd, hne, h]

/-- Witness for C2: a successful download and a non-empty extraction yield
that text with its size. -/
theorem c2_scrape_item_outcome_mapping_witness :
    scrape_item fetchSome extractHello (toResultItem rawItemA) =
      { title := "t"
        url := "http://a"
        snippet := "s"
        source := none
        date := none
        image := none
        content := some "Hello world"
        content_length := some 11 } := by
  have h := (c2_scrape_item_outcome_mapping fetchSome extractHello
    (toResultItem rawItemA)).2.2.2.2.2 "markup" "Hello world"
    rfl (by decide) rfl (by decide)
  exact h.trans (by decide)

/-! ## Claim C3 -/

/-- C3: when the initial web-search step fails, search_and_scrape returns that
failure verbatim (success false with the same query and error, no results
field) and performs zero per-item fetch attempts. -/
theorem c3_search_failure_short_circuits
    (ddgs : TextSearchCap) (tfFetch : FetchCap) (tfExtract : ExtractCap)
    (query : String) (num_results : Nat) (e : String)
    (hfail : ddgs query (web_search_requested (min num_results 10)) =
      .error e) :
    web_search ddgs query (min num_results 10) = .err query e ∧
    search_and_scrape_traced ddgs tfFetch tfExtract query num_results =
      (.err query e, []) := by
  have hw : web_search ddgs query (min num_results 10) = .err query e := by
    simp [web_search, hfail]
  exact ⟨hw, by simp [search_and_scrape_traced, hw]⟩

/-- Witness for C3 with a search capability that always raises. -/
theorem c3_search_failure_short_circuits_witness :
    search_and_scrape_traced ddgsFail fetchNone extractNone "q" 5 =
      (.err "q" "boom", []) :=
  (c3_search_failure_short_circuits ddgsFail fetchNone extractNone
    "q" 5 "boom" rfl).2

/-! ## Claim C9 -/

/-- C9: smart_search is a total routing function over mode: quick routes to
web_search with 3 results, standard routes to web_search with 5 results, and
every other mode value routes to search_and_scrape with 10 results; no mode
value is rejected. -/
theorem c9_smart_search_routing
    (ddgs : TextSearchCap) (tfFetch : FetchCap) (tfExtract : ExtractCap)
    (query : String) :
    smart_search ddgs tfFetch tfExtract query "quick" =
      web_search ddgs query 3 ∧
    smart_search ddgs tfFetch tfExtract query "standard" =
      web_search ddgs query 5 ∧
    ∀ mode : String, mode ≠ "quick" → mode ≠ "standard" →
      smart_search ddgs tfFetch tfExtract query mode =
        search_and_scrape ddgs tfFetch tfExtract query 10 := by
  refine ⟨by simp [smart_search], by simp [smart_search], ?_⟩
  intro mode h1 h2
  simp [smart_search, h1, h2]

/-- Witness for C9 at the unrecognized mode value comprehensive-x. -/
theorem c9_smart_search_routing_witness :
    smart_search ddgsFail fetchNone extractNone "x" "comprehensive-x" =
      search_and_scrape ddgsFail fetchNone extractNone "x" 10 :=
  (c9_smart_search_routing ddgsFail fetchNone extractNone "x").2.2
    "comprehensive-x" (by decide) (by decide)

/-! ## Claim C5 -/

/-- C5 counterexample: the WebScraper variant does not clamp. With a search
capability that honors the documented cap of 20 and raises on any larger
request, WebScraper.web_search and WebScraper.news_search called with
max_results = 25 pass 25 through and fail, while the src/tools web_search
clamps the same request to 20 and succeeds; the requested amount 25 exceeds
the upper bound the claim asserts. -/
theorem c5_clamping_counterexample :
    ws_web_search ddgsCap20 "x" 25 = .err "x" "over cap" ∧
    ws_news_search newsCap20 "x" 25 = .err "x" "over cap" ∧
    web_search ddgsCap20 "x" 25 = .ok "x" [] 0 ∧
    news_search newsCap20 "x" 25 = .ok "x" [] 0 ∧
    ¬ ws_web_search_requested 25 ≤ 20 ∧
    ¬ ws_news_search_requested 25 ≤ 20 := by
  refine ⟨rfl, rfl, rfl, rfl, by decide, by decide⟩

/-- C5 amended: the src/tools web_search and news_search request exactly
min(max_results, 20) results from the external search capability, hence never
more than 20; the WebScraper variants of web_search and news_search request
max_results unchanged, with no upper bound. -/
theorem c5_clamping_amended (max_results : Nat) :
    web_search_requested max_results = min max_results 20 ∧
    web_search_requested max_results ≤ 20 ∧
    news_search_requested max_results = min max_results 20 ∧
    news_search_requested max_results ≤ 20 ∧
    ws_web_search_requested max_results = max_results ∧
    ws_news_search_requested max_results = max_results :=
  ⟨rfl, Nat.min_le_right _ _, rfl, Nat.min_le_right _ _, rfl, rfl⟩

/-! ## Claim C6 -/

/-- C6 counterexample: WebScraper.web_search puts source = "DuckDuckGo" on
every search result, and the success branch of WebScraper.search_and_scrape
rebuilds the enriched dict from title, url and snippet only, so the processed
item comes out without its source field: the fields of the original search
result are not all preserved. -/
theorem c6_preservation_counterexample :
    ws_web_search ddgsOne "q" 1 =
      .ok "q"
        [{ title := "t"
           url := "http://a"
           snippet := "s"
           source := some "DuckDuckGo"
           date := none
           image := none
           content := none
           content_length := none }] 1 ∧
    ws_search_and_scrape ddgsOne fetchSome extractHello "q" 1 =
      .ok "q"
        [{ title := "t"
           url := "http://a"
           snippet := "s"
           source := none
           date := none
           image := none
           content := some "Hello world"
           content_length := some 11 }] 1 ∧
    (some "DuckDuckGo" : Option String) ≠ none := by
  refine ⟨by decide, by decide, by decide⟩

/-- C6 amended: in the src/tools variant, every item processed by
search_and_scrape (an item built by its web_search, carrying only title, url
and snippet) is enriched to an item that preserves all its fields, with only
content and content_length added, in every branch. In the WebScraper variant
the failure branches spread the original item and preserve all its fields,
but the success branch rebuilds the dict from title, url and snippet only and
drops the source field. -/
theorem c6_field_preservation_amended
    (tfFetch : FetchCap) (tfExtract : ExtractCap) (raw : DDGSTextResult) :
    (∃ c n, scrape_item tfFetch tfExtract (toResultItem raw) =
      { toResultItem raw with
        content := some c
        content_length := some n }) ∧
    (∀ r : ResultItem, ∀ e, tfFetch r.url = .error e →
      ws_scrape_item tfFetch tfExtract r =
        { r with
          content := some ("Scraping error: " ++ e)
          content_length := some 0 }) ∧
    (∀ r : ResultItem, tfFetch r.url = .ok none →
      ws_scrape_item tfFetch tfExtract r =
        { r with
          content := some "Failed to download page"
          content_length := some 0 }) ∧
    (∀ (r : ResultItem) (d c : String), tfFetch r.url = .ok (some d) →
      d ≠ "" → tfExtract d = .ok (some c) → c ≠ "" →
      ws_scrape_item tfFetch tfExtract r =
        { title := r.title
          url := r.url
          snippet := r.snippet
          source := none
          date := none
          image := none
          content := some c
          content_length := some c.length }) := by
  refine ⟨?_, fun r e he => by simp [ws_scrape_item, he],
    fun r h => by simp [ws_scrape_item, h],
    fun r d c hd hne hext hc => by simp [ws_scrape_item, hd, hne, hext, hc]⟩
  cases hfetch : tfFetch (toResultItem raw).url with
  | error e =>
    exact ⟨"Error: " ++ e, 0, by simp [scrape_item, hfetch]⟩
  | ok downloaded =>
    cases downloaded with
    | none =>
      exact ⟨"Failed to download page", 0, by simp [scrape_item, hfetch]⟩
    | some d =>
      by_cases hd : d = ""
      · exact ⟨"Failed to download page", 0,
          by simp [scrape_item, hfetch, hd]⟩
      · cases hext : tfExtract d with
        | error e =>
          exact ⟨"Error: " ++ e, 0,
            by simp [scrape_item, hfetch, hd, hext]⟩
        | ok content =>
          simp only [toResultItem] at hfetch
          cases content with
          | none =>
            exact ⟨"Content extraction failed", 0,
              by simp [scrape_item, hfetch, hd, hext, toResultItem]⟩
          | some c =>
            by_cases hc : c = ""
            · exact ⟨"Content extraction failed", 0,
                by simp [scrape_item, hfetch, hd, hext, hc, toResultItem]⟩
            · exact ⟨c, c.length,
                by simp [scrape_item, hfetch, hd, hext, hc, toResultItem]⟩

/-- Witness for C6 amended: the WebScraper success branch at a concrete item
with a source field, showing the rebuilt dict. -/
theorem c6_field_preservation_amended_witness :
    ws_scrape_item fetchSome extractHello (ws_toResultItem rawItemA) =
      { title := "t"
        url := "http://a"
        snippet := "s"
        source := none
        date := none
        image := none
        content := some "Hello world"
        content_length := some 11 } := by
  have h := (c6_field_preservation_amended fetchSome extractHello
    rawItemA).2.2.2 (ws_toResultItem rawItemA) "markup" "Hello world"
    rfl (by decide) rfl (by decide)
  exact h.trans (by decide)

/-! ## Claim C4 -/

/-- A success response is recognized as such. -/
@[simp]
theorem TableResponse.isSuccess_ok (url : String) (hs : List String)
    (rows : List (List String)) (n : Nat) :
    (TableResponse.ok url hs rows n).isSuccess = true := rfl

/-- An error response is recognized as such. -/
@[simp]
theorem TableResponse.isSuccess_err (url e : String) :
    (TableResponse.err url e).isSuccess = false := rfl

/-- Python indexing of the table list yields an element exactly when the index
lies in the range -N ≤ i < N (counted from the back when negative). -/
theorem pyListGet_isSome (tables : List HtmlTable) (i : Int) :
    ((pyListGet tables i).isSome = true) ↔
      ((0 ≤ i ∧ i < tables.length) ∨ (i < 0 ∧ 0 ≤ i + tables.length)) := by
  have hsome : ∀ (l : List HtmlTable) (n : Nat),
      ((l[n]?).isSome = true) ↔ n < l.length := by
    intro l n
    rw [Option.isSome_iff_ne_none, ne_eq, List.getElem?_eq_none_iff]
    omega
  unfold pyListGet
  by_cases h1 : 0 ≤ i
  · rw [if_pos h1, hsome]
    omega
  · rw [if_neg h1]
    by_cases h2 : (0 : Int) ≤ i + tables.length
    · rw [if_pos h2, hsome]
      omega
    · rw [if_neg h2]
      simp only [Option.isSome_none, Bool.false_eq_true, false_iff]
      omega

/-- C4 counterexample: on a document with one table, scrape_table succeeds at
table_index = -1: the code only rejects table_index >= len(tables), so a
negative index reaches the Python list indexing, which resolves -1 to the last
table. The claim asserts success only for 0 ≤ table_index < N. -/
theorem c4_table_index_counterexample :
    scrape_table_doc "u" oneTableDoc (-1) = .ok "u" [] [] 0 ∧
    ¬ ((scrape_table_doc "u" oneTableDoc (-1)).isSuccess = true ↔
        (0 ≤ (-1 : Int) ∧ (-1 : Int) < (oneTableDoc.length : Int))) := by
  refine ⟨by decide, by decide⟩

/-- C4 amended: scrape_table succeeds exactly when the document has at least
one table and -N ≤ table_index < N (Python indexing resolves a negative index
from the back); restricted to nonnegative table_index this is the claimed
success iff table_index < N. It fails with the no-tables-found message when
N = 0, and with the out-of-range message whenever table_index ≥ N and
N > 0 (in particular at table_index = N). -/
theorem c4_scrape_table_index_range (url : String) (tables : List HtmlTable)
    (table_index : Int) :
    ((scrape_table_doc url tables table_index).isSuccess = true ↔
      (0 < tables.length ∧ -(tables.length : Int) ≤ table_index ∧
        table_index < (tables.length : Int))) ∧
    (tables.length = 0 →
      scrape_table_doc url tables table_index =
        .err url "No tables found on page") ∧
    (0 < tables.length → (tables.length : Int) ≤ table_index →
      scrape_table_doc url tables table_index =
        .err url ("Table index " ++ toString table_index ++
          " out of range. Found " ++ toString tables.length ++ " tables.")) ∧
    (0 ≤ table_index →
      ((scrape_table_doc url tables table_index).isSuccess = true ↔
        table_index < (tables.length : Int))) := by
  have hmain : (scrape_table_doc url tables table_index).isSuccess = true ↔
      (0 < tables.length ∧ -(tables.length : Int) ≤ table_index ∧
        table_index < (tables.length : Int)) := by
    unfold scrape_table_doc
    by_cases h0 : tables.length = 0
    · rw [if_pos h0]
      simp only [TableResponse.isSuccess_err, Bool.false_eq_true, false_iff]
      omega
    · rw [if_neg h0]
      by_cases hge : (tables.length : Int) ≤ table_index
      · rw [if_pos hge]
        simp only [TableResponse.isSuccess_err, Bool.false_eq_true, false_iff]
        omega
      · rw [if_neg hge]
        have hpy := pyListGet_isSome tables table_index
        cases hpg : pyListGet tables table_index with
        | none =>
          rw [hpg] at hpy
          simp only [Option.isSome_none, Bool.false_eq_true, false_iff] at hpy
          simp only [TableResponse.isSuccess_err, Bool.false_eq_true,
            false_iff]
          omega
        | some t =>
          rw [hpg] at hpy
          simp only [Option.isSome_some, true_iff] at hpy
          simp only [TableResponse.isSuccess_ok, true_iff]
          omega
  refine ⟨hmain, ?_, ?_, ?_⟩
  · intro h0
    simp [scrape_table_doc, h0]
  · intro hpos hge
    have h0 : ¬ tables.length = 0 := by omega
    simp [scrape_table_doc, h0, hge]
  · intro hnn
    rw [hmain]
    omega

/-- Witness for C4: at one table and table_index 2 the call fails with the
out-of-range message. -/
theorem c4_scrape_table_index_range_witness :
    scrape_table_doc "u" oneTableDoc 2 =
      .err "u" "Table index 2 out of range. Found 1 tables." := by
  have h := (c4_scrape_table_index_range "u" oneTableDoc 2).2.2.1
    (by decide) (by decide)
  exact h.trans (by decide)

/-! ## Claim C8 -/

/-- C8 counterexample: the selected table has thead cells H (so headers is
the one-element list H) and, among its trs, one tr with no cells. The cleaned
cell sequence of that tr is the empty list, which differs from the headers,
so by the claim it should contribute a row; the code drops it (the test
if cells rejects an empty cell list), yielding no rows at all. -/
theorem c8_row_rule_counterexample :
    scrape_table_doc "u" emptyRowDoc 0 = .ok "u" ["H"] [] 0 ∧
    ¬ (scrape_table_doc "u" emptyRowDoc 0 = .ok "u" ["H"] [[]] 1) ∧
    ([] : List String) ≠ ["H"] := by
  refine ⟨by decide, by decide, by decide⟩

/-- C8 amended: every tr of the selected table with a nonempty cell list
contributes its cleaned cell texts as a row unless that sequence is identical
to the headers sequence; a tr with no cells contributes nothing; every emitted
row comes from such a tr; and the spec scenario holds: one table with rows
A,B and 1,2 and no thead yields headers = [] and both rows kept. -/
theorem c8_table_rows_rule (t : HtmlTable) :
    (∀ tr ∈ t.trs, tr.cells.map clean_text ≠ [] →
      tr.cells.map clean_text ≠ table_headers t →
      tr.cells.map clean_text ∈ table_rows t) ∧
    (∀ row ∈ table_rows t,
      row ≠ [] ∧ row ≠ table_headers t ∧
      ∃ tr ∈ t.trs, row = tr.cells.map clean_text) ∧
    scrape_table_doc "u" scenarioDoc 0 =
      .ok "u" [] [["A", "B"], ["1", "2"]] 2 := by
  refine ⟨?_, ?_, by decide⟩
  · intro tr htr h1 h2
    refine List.mem_filter.mpr ⟨List.mem_map_of_mem _ htr, ?_⟩
    simp only [Bool.and_eq_true, Bool.not_eq_true', List.isEmpty_eq_false,
      bne_iff_ne, ne_eq]
    exact ⟨h1, h2⟩
  · intro row hrow
    have h := List.mem_filter.mp hrow
    obtain ⟨hmem, hpred⟩ := h
    simp only [Bool.and_eq_true, Bool.not_eq_true', List.isEmpty_eq_false,
      bne_iff_ne, ne_eq] at hpred
    obtain ⟨tr, htr, heq⟩ := List.mem_map.mp hmem
    exact ⟨hpred.1, hpred.2, tr, htr, heq.symm⟩

/-- Witness for C8: in the scenario table, the first row is emitted. -/
theorem c8_table_rows_rule_witness :
    (["A", "B"] : List String) ∈
      table_rows { theadCells := none, trs := [⟨["A", "B"]⟩, ⟨["1", "2"]⟩] } := by
  have h := (c8_table_rows_rule
    { theadCells := none, trs := [⟨["A", "B"]⟩, ⟨["1", "2"]⟩] }).1
    ⟨["A", "B"]⟩ (by decide) (by decide) (by decide)
  have e : (⟨["A", "B"]⟩ : TableRow).cells.map clean_text = ["A", "B"] := by
    decide
  rwa [e] at h

/-! ## Claim C7 -/

/-- C7: extract_article takes the newspaper body text as content when it is
non-empty and otherwise the trafilatura candidate; when both are empty the
content is null with length 0; the structured fields (title, authors,
publish_date, top_image) come from the newspaper strategy only; an exception
in either strategy before producing a candidate aborts the whole call with an
error envelope carrying no structured fields; and in the spec scenario (empty
primary body text, fallback Hello world) the content is Hello world with
content_length 11. -/
theorem c7_extract_article_selection (np : NewspaperCap) (tfFetch : FetchCap)
    (tfExtract : ExtractCap) (url : String) :
    (∀ e, np url = .error e →
      extract_article np tfFetch tfExtract url = .err url e) ∧
    (∀ article e, np url = .ok article →
      trafilatura_step tfFetch tfExtract url = .error e →
      extract_article np tfFetch tfExtract url = .err url e) ∧
    (∀ article tfc, np url = .ok article →
      trafilatura_step tfFetch tfExtract url = .ok tfc →
      article.text ≠ "" →
      extract_article np tfFetch tfExtract url =
        .ok url article.title article.authors article.publish_date
          article.top_image (some article.text) article.text.length) ∧
    (∀ article tfc, np url = .ok article →
      trafilatura_step tfFetch tfExtract url = .ok tfc →
      article.text = "" →
      extract_article np tfFetch tfExtract url =
        .ok url article.title article.authors article.publish_date
          article.top_image tfc
          (match tfc with
           | some c => if c = "" then 0 else c.length
           | none => 0)) ∧
    (∀ article, np url = .ok article →
      trafilatura_step tfFetch tfExtract url = .ok none →
      article.text = "" →
      extract_article np tfFetch tfExtract url =
        .ok url article.title article.authors article.publish_date
          article.top_image none 0) ∧
    extract_article npEmptyText fetchSome extractHello "u" =
      .ok "u" "T" [] none "" (some "Hello world") 11 := by
  refine ⟨fun e he => by simp [extract_article, he],
    fun article e hnp htf => by simp [extract_article, hnp, htf],
    fun article tfc hnp htf htext => by
      simp [extract_article, hnp, htf, htext],
    fun article tfc hnp htf htext => by
      simp [extract_article, hnp, htf, htext],
    fun article hnp htf htext => by simp [extract_article, hnp, htf, htext],
    by decide⟩

/-- Witness for C7: the fallback scenario, obtained from the theorem with the
newspaper oracle returning empty body text and trafilatura returning the text
Hello world. -/
theorem c7_extract_article_selection_witness :
    extract_article npEmptyText fetchSome extractHello "u" =
      .ok "u" "T" [] none "" (some "Hello world") 11 := by
  have h := (c7_extract_article_selection npEmptyText fetchSome extractHello
    "u").2.2.2.1 ⟨"T", [], none, "", ""⟩ (some "Hello world") rfl rfl rfl
  exact h.trans (by decide)

/-! ## Claim C10 -/

/-- Collapsing whitespace in the empty list yields the empty list. -/
theorem collapseWsAux_nil (b : Bool) : collapseWsAux b [] = [] := by
  cases b <;> rfl

/-- Inside a whitespace run, a further whitespace character is absorbed. -/
theorem collapseWsAux_true_cons_ws (c : Char) (cs : List Char)
    (h : pyWs c = true) :
    collapseWsAux true (c :: cs) = collapseWsAux true cs := by
  simp [collapseWsAux, h]

/-- Inside a whitespace run, a non-whitespace character ends the run. -/
theorem collapseWsAux_true_cons_nws (c : Char) (cs : List Char)
    (h : pyWs c = false) :
    collapseWsAux true (c :: cs) = c :: collapseWsAux false cs := by
  simp [collapseWsAux, h]

/-- Outside a run, a whitespace character opens a run and emits one space. -/
theorem collapseWsAux_false_cons_ws (c : Char) (cs : List Char)
    (h : pyWs c = true) :
    collapseWsAux false (c :: cs) = ' ' :: collapseWsAux true cs := by
  simp [collapseWsAux, h]

/-- Outside a run, a non-whitespace character is copied. -/
theorem collapseWsAux_false_cons_nws (c : Char) (cs : List Char)
    (h : pyWs c = false) :
    collapseWsAux false (c :: cs) = c :: collapseWsAux false cs := by
  simp [collapseWsAux, h]

/-- Every whitespace character in the collapsed output is a plain space. -/
theorem collapseWsAux_ws_eq_space (l : List Char) :
    ∀ b : Bool, ∀ c ∈ collapseWsAux b l, pyWs c = true → c = ' ' := by
  induction l with
  | nil => intro b c hc; rw [collapseWsAux_nil] at hc; simp at hc
  | cons a as ih =>
    intro b c hc hws
    cases ha : pyWs a with
    | true =>
      cases b with
      | true =>
        rw [collapseWsAux_true_cons_ws a as ha] at hc
        exact ih true c hc hws
      | false =>
        rw [collapseWsAux_false_cons_ws a as ha] at hc
        rcases List.mem_cons.mp hc with rfl | hc
        · rfl
        · exact ih true c hc hws
    | false =>
      cases b with
      | true =>
        rw [collapseWsAux_true_cons_nws a as ha] at hc
        rcases List.mem_cons.mp hc with rfl | hc
        · rw [ha] at hws; exact absurd hws (by simp)
        · exact ih false c hc hws
      | false =>
        rw [collapseWsAux_false_cons_nws a as ha] at hc
        rcases List.mem_cons.mp hc with rfl | hc
        · rw [ha] at hws; exact absurd hws (by simp)
        · exact ih false c hc hws

/-- The output produced while inside a run starts with a non-whitespace
character when nonempty. -/
theorem collapseWsAux_true_head (l : List Char) :
    ∀ c ∈ (collapseWsAux true l).head?, pyWs c = false := by
  induction l with
  | nil => intro c hc; rw [collapseWsAux_nil] at hc; simp at hc
  | cons a as ih =>
    intro c hc
    cases ha : pyWs a with
    | true =>
      rw [collapseWsAux_true_cons_ws a as ha] at hc
      exact ih c hc
    | false =>
      rw [collapseWsAux_true_cons_nws a as ha] at hc
      simp only [List.head?_cons, Option.mem_def, Option.some.injEq] at hc
      rw [← hc]
      exact ha

/-- The collapsed output never holds two adjacent whitespace characters. -/
theorem collapseWsAux_chain (l : List Char) :
    ∀ b : Bool, List.Chain' (fun a b => ¬(pyWs a = true ∧ pyWs b = true))
      (collapseWsAux b l) := by
  induction l with
  | nil => intro b; rw [collapseWsAux_nil]; exact List.chain'_nil
  | cons a as ih =>
    intro b
    cases ha : pyWs a with
    | true =>
      cases b with
      | true =>
        rw [collapseWsAux_true_cons_ws a as ha]
        exact ih true
      | false =>
        rw [collapseWsAux_false_cons_ws a as ha]
        refine List.chain'_cons'.mpr ⟨?_, ih true⟩
        intro y hy
        have hny := collapseWsAux_true_head as y hy
        intro hcon
        rw [hny] at hcon
        exact absurd hcon.2 (by simp)
    | false =>
      have hgoal : List.Chain' (fun a b => ¬(pyWs a = true ∧ pyWs b = true))
          (a :: collapseWsAux false as) := by
        refine List.chain'_cons'.mpr ⟨?_, ih false⟩
        intro y hy hcon
        rw [ha] at hcon
        exact absurd hcon.1 (by simp)
      cases b with
      | true => rw [collapseWsAux_true_cons_nws a as ha]; exact hgoal
      | false => rw [collapseWsAux_false_cons_nws a as ha]; exact hgoal

/-- Collapsing is the identity on lists whose whitespace is single spaces
with no two adjacent. -/
theorem collapseWsAux_eq_self (l : List Char)
    (hsp : ∀ c ∈ l, pyWs c = true → c = ' ')
    (hch : List.Chain' (fun a b => ¬(pyWs a = true ∧ pyWs b = true)) l) :
    collapseWsAux false l = l := by
  induction l with
  | nil => rfl
  | cons a as ih =>
    have hch' := List.chain'_cons'.mp hch
    have ihtail : collapseWsAux false as = as :=
      ih (fun c hc hws => hsp c (List.mem_cons_of_mem a hc) hws) hch'.2
    cases ha : pyWs a with
    | true =>
      have hasp : a = ' ' := hsp a (List.mem_cons_self a as) ha
      rw [collapseWsAux_false_cons_ws a as ha]
      have htail : collapseWsAux true as = as := by
        cases as with
        | nil => rfl
        | cons d ds =>
          have hd : pyWs d = false := by
            have hy := hch'.1 d rfl
            cases hdd : pyWs d with
            | true => exact absurd ⟨ha, hdd⟩ hy
            | false => rfl
          rw [collapseWsAux_true_cons_nws d ds hd]
          rw [collapseWsAux_false_cons_nws d ds hd] at ihtail
          exact ihtail
      rw [htail, hasp]
    | false =>
      rw [collapseWsAux_false_cons_nws a as ha, ihtail]

/-- After dropping leading whitespace the head, when present, is
non-whitespace. -/
theorem head_dropWhile_pyWs (l : List Char) :
    ∀ c ∈ (l.dropWhile pyWs).head?, pyWs c = false := by
  induction l with
  | nil => intro c hc; simp at hc
  | cons a as ih =>
    intro c hc
    cases ha : pyWs a with
    | true =>
      rw [List.dropWhile_cons_of_pos ha] at hc
      exact ih c hc
    | false =>
      rw [List.dropWhile_cons_of_neg (by simp [ha])] at hc
      simp only [List.head?_cons, Option.mem_def, Option.some.injEq] at hc
      rw [← hc]
      exact ha

/-- Dropping leading whitespace is the identity when the head is already
non-whitespace. -/
theorem dropWhile_eq_self_of_head (l : List Char)
    (h : ∀ c ∈ l.head?, pyWs c = false) : l.dropWhile pyWs = l := by
  cases l with
  | nil => rfl
  | cons a as =>
    have ha : pyWs a = false := h a rfl
    rw [List.dropWhile_cons_of_neg (by simp [ha])]

/-- Right-stripping yields a prefix of the original list. -/
theorem rstripWs_prefix_self (l : List Char) : rstripWs l <+: l := by
  unfold rstripWs
  have h : l.reverse.dropWhile pyWs <:+ l.reverse := List.dropWhile_suffix pyWs
  conv_rhs => rw [← List.reverse_reverse l]
  exact List.reverse_prefix.mpr h

/-- After right-stripping the last character, when present, is
non-whitespace. -/
theorem getLast_rstripWs (l : List Char) :
    ∀ c ∈ (rstripWs l).getLast?, pyWs c = false := by
  unfold rstripWs
  intro c hc
  rw [List.getLast?_reverse] at hc
  exact head_dropWhile_pyWs l.reverse c hc

/-- A nonempty prefix has the same head as the full list. -/
theorem prefix_head_eq (x y : List Char) (h : y <+: x) (hne : y ≠ []) :
    y.head? = x.head? := by
  obtain ⟨t, rfl⟩ := h
  cases y with
  | nil => exact absurd rfl hne
  | cons a as => rfl

/-- Stripping only removes characters. -/
theorem stripWs_subset (l : List Char) : stripWs l ⊆ l := by
  unfold stripWs
  have h1 : rstripWs (lstripWs l) <+: lstripWs l := rstripWs_prefix_self _
  have h2 : lstripWs l <:+ l := List.dropWhile_suffix pyWs
  exact (h1.sublist.trans h2.sublist).subset

/-- Stripping preserves the absence of adjacent whitespace. -/
theorem stripWs_chain (l : List Char)
    (hch : List.Chain' (fun a b => ¬(pyWs a = true ∧ pyWs b = true)) l) :
    List.Chain' (fun a b => ¬(pyWs a = true ∧ pyWs b = true)) (stripWs l) :=
  List.Chain'.prefix (hch.suffix (List.dropWhile_suffix pyWs))
    (rstripWs_prefix_self _)

/-- A stripped list starts with a non-whitespace character when nonempty. -/
theorem head_stripWs (l : List Char) :
    ∀ c ∈ (stripWs l).head?, pyWs c = false := by
  intro c hc
  by_cases hne : stripWs l = []
  · rw [hne] at hc; simp at hc
  · unfold stripWs at hc hne
    rw [prefix_head_eq (lstripWs l) _ (rstripWs_prefix_self _) hne] at hc
    exact head_dropWhile_pyWs l c hc

/-- A stripped list ends with a non-whitespace character when nonempty. -/
theorem getLast_stripWs (l : List Char) :
    ∀ c ∈ (stripWs l).getLast?, pyWs c = false := by
  unfold stripWs
  exact getLast_rstripWs _

/-- Stripping is the identity when both ends are already non-whitespace. -/
theorem stripWs_eq_self (l : List Char)
    (hhead : ∀ c ∈ l.head?, pyWs c = false)
    (hlast : ∀ c ∈ l.getLast?, pyWs c = false) : stripWs l = l := by
  unfold stripWs lstripWs rstripWs
  rw [dropWhile_eq_self_of_head l hhead]
  rw [dropWhile_eq_self_of_head l.reverse ?_]
  · exact List.reverse_reverse l
  · intro c hc
    rw [List.head?_reverse] at hc
    exact hlast c hc


/-- C10: clean_text is idempotent, its output contains no two adjacent
whitespace characters (hence no consecutive whitespace runs) and neither
starts nor ends with whitespace, and empty or absent input yields the empty
string. -/
theorem c10_clean_text_idempotent_normalized (s : String) :
    clean_text (clean_text s) = clean_text s ∧
    List.Chain' (fun a b => ¬(pyWs a = true ∧ pyWs b = true))
      (clean_text s).data ∧
    ((clean_text s).data.head?.all fun c => !pyWs c) = true ∧
    ((clean_text s).data.getLast?.all fun c => !pyWs c) = true ∧
    clean_text "" = "" ∧
    clean_text_of_opt none = "" := by
  have hall : ∀ (o : Option Char), (∀ c ∈ o, pyWs c = false) →
      (o.all fun c => !pyWs c) = true := by
    intro o h
    cases o with
    | none => rfl
    | some a => simp [h a rfl]
  by_cases hs : s = ""
  · subst hs
    exact ⟨rfl, List.chain'_nil, rfl, rfl, rfl, rfl⟩
  · have hdata : (clean_text s).data = stripWs (collapseWs s.data) := by
      simp [clean_text, hs]
    have hsp : ∀ c ∈ (clean_text s).data, pyWs c = true → c = ' ' := by
      rw [hdata]
      intro c hc
      exact collapseWsAux_ws_eq_space s.data false c (stripWs_subset _ hc)
    have hch : List.Chain' (fun a b => ¬(pyWs a = true ∧ pyWs b = true))
        (clean_text s).data := by
      rw [hdata]
      exact stripWs_chain _ (collapseWsAux_chain s.data false)
    have hh : ∀ c ∈ (clean_text s).data.head?, pyWs c = false := by
      rw [hdata]
      exact head_stripWs _
    have hl : ∀ c ∈ (clean_text s).data.getLast?, pyWs c = false := by
      rw [hdata]
      exact getLast_stripWs _
    refine ⟨?_, hch, hall _ hh, hall _ hl, rfl, rfl⟩
    by_cases ht : clean_text s = ""
    · rw [ht]
      rfl
    · conv_lhs => rw [clean_text]
      rw [if_neg ht]
      rw [show collapseWs (clean_text s).data = (clean_text s).data from
        collapseWsAux_eq_self _ hsp hch]
      rw [stripWs_eq_self _ hh hl]
